import Mathlib

/-!
Verification of the inventory core of `inventario_app.py`: the movement
ledger (`Inventario`), the stock aggregator `calcular_stock`, the status
classifier `calcular_estado`, the movement recorders (transfers, returns,
drink exits), and the daily/weekly audit engine. Quantities are modelled
as rationals, timestamps and calendar dates as integers (a date is a day
number with day 0 falling on a Monday, so that `d % 7` mirrors Python's
`date.weekday()` with Monday = 0).
-/

/-- One row of the `Inventario` table: a signed stock movement. Mirrors the
dict literals appended by the movement recorders
(`Fecha`, `Tipo`, `Producto`, `Cantidad`, `Ubicación`, `Usuario`). -/
structure Registro where
  fecha : Int
  tipo : String
  producto : String
  cantidad : Rat
  ubicacion : String
  usuario : String
deriving DecidableEq

/-- One derived stock row, as produced by `calcular_stock`
(`Producto`, `Ubicación`, `Stock`). -/
structure StockRow where
  producto : String
  ubicacion : String
  stock : Rat
deriving DecidableEq

/-- The group keys of `inventario.groupby(["Producto", "Ubicación"])`:
each distinct (product, location) pair occurring in the ledger. -/
def stockKeys (inventario : List Registro) : List (String × String) :=
  (inventario.map (fun e => (e.producto, e.ubicacion))).dedup

/-- Sum of the `Cantidad` column over one (product, location) group of the
ledger, as performed by the `groupby(...)["Cantidad"].sum()` step. -/
def sumCantidad (inventario : List Registro) (p u : String) : Rat :=
  ((inventario.filter (fun e => e.producto == p && e.ubicacion == u)).map
    (fun e => e.cantidad)).sum

/-- `calcular_stock`: groups the ledger by `Producto` and `Ubicación` and
sums the signed `Cantidad` values; an empty ledger yields an empty table. -/
def calcular_stock (inventario : List Registro) : List StockRow :=
  (stockKeys inventario).map (fun k => ⟨k.1, k.2, sumCantidad inventario k.1 k.2⟩)

/-- `calcular_estado` from the stock tab: classifies a stock level against
the catalog minimum. -/
def calcular_estado (stock minimo : Rat) : String :=
  if minimo = 0 then "Sin mínimo"
  else if stock < minimo then "Crítico"
  else if stock < minimo * 2 then "Bajo"
  else "Suficiente"

/-- **C1.** `calcular_stock` depends only on the multiset of ledger rows:
for any permutation of the ledger the computed stock rows form the same
set, and the empty ledger yields the empty result. -/
theorem calcular_stock_perm_invariant (L L' : List Registro) (h : L.Perm L') :
    (∀ r : StockRow, r ∈ calcular_stock L ↔ r ∈ calcular_stock L') ∧
    calcular_stock [] = ([] : List StockRow) := by
  constructor
  · intro r
    have hsum : ∀ p u, sumCantidad L p u = sumCantidad L' p u := by
      intro p u
      exact ((h.filter _).map _).sum_eq
    have hkey : ∀ k : String × String, k ∈ stockKeys L ↔ k ∈ stockKeys L' := by
      intro k
      unfold stockKeys
      rw [List.mem_dedup, List.mem_dedup]
      exact (h.map _).mem_iff
    unfold calcular_stock
    simp only [List.mem_map]
    constructor
    · rintro ⟨k, hk, rfl⟩
      exact ⟨k, (hkey k).mp hk, by rw [hsum]⟩
    · rintro ⟨k, hk, rfl⟩
      exact ⟨k, (hkey k).mpr hk, by rw [hsum]⟩
  · rfl

/-- Witness for C1 at a concrete two-row ledger and its swap. -/
theorem calcular_stock_perm_invariant_witness :
    (∀ r : StockRow,
        r ∈ calcular_stock [⟨0, "Entrada", "Vodka", 3, "Bar", "u"⟩,
                            ⟨1, "Entrada", "Ron", 2, "Almacén", "u"⟩] ↔
        r ∈ calcular_stock [⟨1, "Entrada", "Ron", 2, "Almacén", "u"⟩,
                            ⟨0, "Entrada", "Vodka", 3, "Bar", "u"⟩]) ∧
    calcular_stock [] = ([] : List StockRow) :=
  calcular_stock_perm_invariant _ _ (List.Perm.swap _ _ _)

/-- **C2.** `calcular_estado` realises the spec's four-way classification:
`Sin mínimo` when the minimum is 0; `Crítico` when the minimum is nonzero
and stock is below it; `Bajo` when the minimum is nonzero and
minimum ≤ stock < 2 × minimum; `Suficiente` in the remaining case; and in
particular stock 8 against minimum 5 is `Bajo`. -/
theorem calcular_estado_spec (s m : Rat) :
    (m = 0 → calcular_estado s m = "Sin mínimo") ∧
    (m ≠ 0 → s < m → calcular_estado s m = "Crítico") ∧
    (m ≠ 0 → m ≤ s → s < 2 * m → calcular_estado s m = "Bajo") ∧
    (m ≠ 0 → m ≤ s → 2 * m ≤ s → calcular_estado s m = "Suficiente") ∧
    calcular_estado 8 5 = "Bajo" := by
  refine ⟨?_, ?_, ?_, ?_, ?_⟩
  · intro h
    simp [calcular_estado, h]
  · intro h1 h2
    simp [calcular_estado, h1, h2]
  · intro h1 h2 h3
    have hnl : ¬ s < m := not_lt.mpr h2
    have h3' : s < m * 2 := by linarith
    simp [calcular_estado, h1, hnl, h3']
  · intro h1 h2 h3
    have hnl : ¬ s < m := not_lt.mpr h2
    have hnl2 : ¬ s < m * 2 := by push_neg; linarith
    simp [calcular_estado, h1, hnl, hnl2]
  · norm_num [calcular_estado]

/-- Witness for C2 at stock 8, minimum 5 (the `Bajo` case) and at
stock 3, minimum 5 (the `Crítico` case). -/
theorem calcular_estado_spec_witness :
    calcular_estado 8 5 = "Bajo" ∧ calcular_estado 3 5 = "Crítico" :=
  ⟨(calcular_estado_spec 8 5).2.2.2.2,
   (calcular_estado_spec 3 5).2.1 (by norm_num) (by norm_num)⟩

/-- One row of the `Transferencias` operation log. -/
structure TransferenciaRecord where
  fecha : Int
  producto : String
  cantidad : Rat
  origen : String
  destino : String
  usuario : String
deriving DecidableEq

/-- Total stock summed over every product and location: the sum of the
whole `Cantidad` column of the ledger. -/
def totalStock (inventario : List Registro) : Rat :=
  (inventario.map (fun e => e.cantidad)).sum

/-- The transfer recorder (`form_transferencia` submit branch): if origin
equals destination the request is rejected and nothing changes; otherwise
a negative movement at the origin and a positive one at the destination
are appended to the ledger, and one row is appended to the
`Transferencias` log. -/
def form_transferencia (fecha : Int) (producto : String) (cantidad : Rat)
    (origen destino usuario : String)
    (inventario : List Registro) (transferencias : List TransferenciaRecord) :
    List Registro × List TransferenciaRecord :=
  if origen = destino then (inventario, transferencias)
  else
    (inventario ++ [⟨fecha, "Transferencia", producto, -cantidad, origen, usuario⟩,
                    ⟨fecha, "Transferencia", producto, cantidad, destino, usuario⟩],
     transferencias ++ [⟨fecha, producto, cantidad, origen, destino, usuario⟩])

/-- **C3.** A valid transfer (positive quantity, distinct origin and
destination) appends exactly the two movements −q at the origin and +q at
the destination for the same product, and leaves the total stock summed
over all locations unchanged. -/
theorem form_transferencia_spec (fecha : Int) (producto : String) (cantidad : Rat)
    (origen destino usuario : String)
    (inventario : List Registro) (transferencias : List TransferenciaRecord)
    (hq : 0 < cantidad) (hne : origen ≠ destino) :
    (form_transferencia fecha producto cantidad origen destino usuario
        inventario transferencias).1 =
      inventario ++ [⟨fecha, "Transferencia", producto, -cantidad, origen, usuario⟩,
                     ⟨fecha, "Transferencia", producto, cantidad, destino, usuario⟩] ∧
    totalStock (form_transferencia fecha producto cantidad origen destino usuario
        inventario transferencias).1 = totalStock inventario := by
  unfold form_transferencia
  rw [if_neg hne]
  refine ⟨rfl, ?_⟩
  simp [totalStock]

/-- Witness for C3: transferring 5 units of Vodka from the warehouse to
the bar over an empty ledger. -/
theorem form_transferencia_spec_witness :
    (form_transferencia 0 "Vodka" 5 "Almacén" "Bar" "u" [] []).1 =
      [] ++ [⟨0, "Transferencia", "Vodka", -5, "Almacén", "u"⟩,
             ⟨0, "Transferencia", "Vodka", 5, "Bar", "u"⟩] ∧
    totalStock (form_transferencia 0 "Vodka" 5 "Almacén" "Bar" "u" [] []).1 =
      totalStock [] :=
  form_transferencia_spec 0 "Vodka" 5 "Almacén" "Bar" "u" [] []
    (by norm_num) (by decide)

/-- **C7.** A transfer whose origin equals its destination is rejected
before anything is built: the ledger and the `Transferencias` log are
returned unchanged. -/
theorem form_transferencia_rechazo (fecha : Int) (producto : String) (cantidad : Rat)
    (origen destino usuario : String)
    (inventario : List Registro) (transferencias : List TransferenciaRecord)
    (h : origen = destino) :
    form_transferencia fecha producto cantidad origen destino usuario
        inventario transferencias = (inventario, transferencias) := by
  unfold form_transferencia
  rw [if_pos h]

/-- Witness for C7: a Bar to Bar transfer request changes nothing. -/
theorem form_transferencia_rechazo_witness :
    form_transferencia 0 "Vodka" 5 "Bar" "Bar" "u"
        [⟨0, "Entrada", "Vodka", 3, "Bar", "u"⟩] [] =
      ([⟨0, "Entrada", "Vodka", 3, "Bar", "u"⟩], []) :=
  form_transferencia_rechazo 0 "Vodka" 5 "Bar" "Bar" "u"
    [⟨0, "Entrada", "Vodka", 3, "Bar", "u"⟩] [] rfl

/-- One row of the `Devoluciones` operation log
(`Fecha`, `Producto`, `Cantidad`, `Origen`, `Destino`, `Usuario`, `Motivo`). -/
structure DevolucionRecord where
  fecha : Int
  producto : String
  cantidad : Rat
  origen : String
  destino : String
  usuario : String
  motivo : String
deriving DecidableEq

/-- The ledger movements built by the return recorder: a negative movement
at the origin only when the origin is not the external marker
`Cliente/Externo`, then always a positive movement at the destination. -/
def movimientos_devolucion (fecha : Int) (producto : String) (cantidad : Rat)
    (origen destino usuario : String) : List Registro :=
  (if origen ≠ "Cliente/Externo"
    then [⟨fecha, "Devolución", producto, -cantidad, origen, usuario⟩]
    else []) ++
  [⟨fecha, "Devolución", producto, cantidad, destino, usuario⟩]

/-- The return recorder (`form_devolucion` submit branch): appends the
built movements to the ledger and one row, with the positive submitted
quantity, to the `Devoluciones` log. -/
def form_devolucion (fecha : Int) (producto : String) (cantidad : Rat)
    (origen destino usuario motivo : String)
    (inventario : List Registro) (devoluciones : List DevolucionRecord) :
    List Registro × List DevolucionRecord :=
  (inventario ++ movimientos_devolucion fecha producto cantidad origen destino usuario,
   devoluciones ++ [⟨fecha, producto, cantidad, origen, destino, usuario, motivo⟩])

/-- **C4.** A return of q > 0 always appends +q at the destination; it
additionally appends −q at the origin exactly when the origin is not the
external marker `Cliente/Externo`; hence the total stock grows by q for an
external origin and is unchanged otherwise. -/
theorem form_devolucion_spec (fecha : Int) (producto : String) (cantidad : Rat)
    (origen destino usuario motivo : String)
    (inventario : List Registro) (devoluciones : List DevolucionRecord)
    (hq : 0 < cantidad) :
    (origen = "Cliente/Externo" →
      (form_devolucion fecha producto cantidad origen destino usuario motivo
          inventario devoluciones).1 =
        inventario ++ [⟨fecha, "Devolución", producto, cantidad, destino, usuario⟩] ∧
      totalStock (form_devolucion fecha producto cantidad origen destino usuario motivo
          inventario devoluciones).1 = totalStock inventario + cantidad) ∧
    (origen ≠ "Cliente/Externo" →
      (form_devolucion fecha producto cantidad origen destino usuario motivo
          inventario devoluciones).1 =
        inventario ++ [⟨fecha, "Devolución", producto, -cantidad, origen, usuario⟩,
                       ⟨fecha, "Devolución", producto, cantidad, destino, usuario⟩] ∧
      totalStock (form_devolucion fecha producto cantidad origen destino usuario motivo
          inventario devoluciones).1 = totalStock inventario) := by
  constructor
  · intro h
    constructor
    · simp [form_devolucion, movimientos_devolucion, h]
    · simp [form_devolucion, movimientos_devolucion, h, totalStock]
  · intro h
    constructor
    · simp [form_devolucion, movimientos_devolucion, h]
    · simp [form_devolucion, movimientos_devolucion, h, totalStock]

/-- Witness for C4: a client return of 2 units of Ron to the warehouse
raises total stock by 2, while an internal Bar to warehouse return of the
same quantity leaves it unchanged. -/
theorem form_devolucion_spec_witness :
    ((("Cliente/Externo" : String) = "Cliente/Externo" →
      (form_devolucion 0 "Ron" 2 "Cliente/Externo" "Almacén" "u" "" [] []).1 =
        [] ++ [⟨0, "Devolución", "Ron", 2, "Almacén", "u"⟩] ∧
      totalStock (form_devolucion 0 "Ron" 2 "Cliente/Externo" "Almacén" "u" "" [] []).1 =
        totalStock [] + 2) ∧
     (("Cliente/Externo" : String) ≠ "Cliente/Externo" →
      (form_devolucion 0 "Ron" 2 "Cliente/Externo" "Almacén" "u" "" [] []).1 =
        [] ++ [⟨0, "Devolución", "Ron", -2, "Cliente/Externo", "u"⟩,
               ⟨0, "Devolución", "Ron", 2, "Almacén", "u"⟩] ∧
      totalStock (form_devolucion 0 "Ron" 2 "Cliente/Externo" "Almacén" "u" "" [] []).1 =
        totalStock [])) ∧
    totalStock (form_devolucion 0 "Ron" 2 "Bar" "Almacén" "u" "" [] []).1 =
      totalStock [] :=
  ⟨form_devolucion_spec 0 "Ron" 2 "Cliente/Externo" "Almacén" "u" "" [] []
      (by norm_num),
   ((form_devolucion_spec 0 "Ron" 2 "Bar" "Almacén" "u" "" [] []
      (by norm_num)).2 (by decide)).2⟩

/-- **C10.** Whatever the origin, the `Devoluciones` log receives exactly
one row storing the positive submitted quantity together with the
submitted origin and destination, while the ledger receives one movement
for an external origin and two otherwise. -/
theorem registro_dev_spec (fecha : Int) (producto : String) (cantidad : Rat)
    (origen destino usuario motivo : String)
    (inventario : List Registro) (devoluciones : List DevolucionRecord)
    (hq : 0 < cantidad) :
    (form_devolucion fecha producto cantidad origen destino usuario motivo
        inventario devoluciones).2 =
      devoluciones ++ [⟨fecha, producto, cantidad, origen, destino, usuario, motivo⟩] ∧
    (form_devolucion fecha producto cantidad origen destino usuario motivo
        inventario devoluciones).1.length =
      inventario.length + (if origen = "Cliente/Externo" then 1 else 2) := by
  constructor
  · rfl
  · by_cases h : origen = "Cliente/Externo" <;>
      simp [form_devolucion, movimientos_devolucion, h]

/-- Witness for C10: both an external-origin and an internal-origin return
log one positive row, with one and two ledger movements respectively. -/
theorem registro_dev_spec_witness :
    ((form_devolucion 0 "Ron" 2 "Cliente/Externo" "Almacén" "u" "roto" [] []).2 =
      [] ++ [⟨0, "Ron", 2, "Cliente/Externo", "Almacén", "u", "roto"⟩] ∧
     (form_devolucion 0 "Ron" 2 "Cliente/Externo" "Almacén" "u" "roto" [] []).1.length =
       ([] : List Registro).length +
         (if ("Cliente/Externo" : String) = "Cliente/Externo" then 1 else 2)) ∧
    ((form_devolucion 0 "Ron" 2 "Bar" "Almacén" "u" "roto" [] []).2 =
      [] ++ [⟨0, "Ron", 2, "Bar", "Almacén", "u", "roto"⟩] ∧
     (form_devolucion 0 "Ron" 2 "Bar" "Almacén" "u" "roto" [] []).1.length =
       ([] : List Registro).length +
         (if ("Bar" : String) = "Cliente/Externo" then 1 else 2)) :=
  ⟨registro_dev_spec 0 "Ron" 2 "Cliente/Externo" "Almacén" "u" "roto" [] []
      (by norm_num),
   registro_dev_spec 0 "Ron" 2 "Bar" "Almacén" "u" "roto" [] []
      (by norm_num)⟩

/-- One row of the `Recetas` table
(`Trago`, `Ingrediente`, `Cantidad_ml`). -/
structure RecetaLine where
  trago : String
  ingrediente : String
  cantidad_ml : Rat
deriving DecidableEq

/-- One row of the `Consumos` table
(`Fecha`, `Trago`, `Ingrediente`, `Cantidad_Usada`, `Ubicación`, `Usuario`). -/
structure ConsumoRecord where
  fecha : Int
  trago : String
  ingrediente : String
  cantidad_usada : Rat
  ubicacion : String
  usuario : String
deriving DecidableEq

/-- The recipe lines of one drink: the filter
`recetas_df[recetas_df["Trago"] == trago]`. -/
def ingredientes_de (recetas : List RecetaLine) (trago : String) : List RecetaLine :=
  recetas.filter (fun r => r.trago == trago)

/-- The `salidas_registros` list built by the drink-exit recorder: one
negative ledger movement per recipe line of the drink, each for
`(Cantidad_ml × servings) / 1000` liters at the chosen location. -/
def salidas_registros (recetas : List RecetaLine) (trago : String)
    (cantidad_tragos : Nat) (ubicacion usuario : String) (fecha : Int) :
    List Registro :=
  (ingredientes_de recetas trago).map
    (fun r => ⟨fecha, "Salida Trago", r.ingrediente,
               -(r.cantidad_ml * (cantidad_tragos : Rat) / 1000), ubicacion, usuario⟩)

/-- The `consumos_nuevos` list built by the drink-exit recorder: one
`Consumos` row per ledger movement, with `Cantidad_Usada` the negated
(hence positive) movement quantity. -/
def consumos_nuevos (salidas : List Registro) (trago : String)
    (ubicacion usuario : String) : List ConsumoRecord :=
  salidas.map (fun item =>
    ⟨item.fecha, trago, item.producto, -item.cantidad, ubicacion, usuario⟩)

/-- The effect of the drink-exit recorder (`form_salida_tragos` submit
branch) on the ledger: the ingredient movements are appended. -/
def form_salida_tragos (recetas : List RecetaLine) (trago : String)
    (cantidad_tragos : Nat) (ubicacion usuario : String) (fecha : Int)
    (inventario : List Registro) : List Registro :=
  inventario ++ salidas_registros recetas trago cantidad_tragos ubicacion usuario fecha

/-- **C5.** For a drink with n ≥ 1 recipe lines and s ≥ 1 servings the
recorder builds exactly n ledger movements and n consumption rows; the
i-th movement carries the i-th ingredient with quantity
−(Cantidad_ml × s) / 1000 at the chosen location, and the i-th consumption
row carries `Cantidad_Usada = (Cantidad_ml × s) / 1000`. -/
theorem form_salida_tragos_spec (recetas : List RecetaLine) (trago : String)
    (s : Nat) (ubicacion usuario : String) (fecha : Int)
    (hn : 1 ≤ (ingredientes_de recetas trago).length) (hs : 1 ≤ s) :
    (salidas_registros recetas trago s ubicacion usuario fecha).length =
      (ingredientes_de recetas trago).length ∧
    (consumos_nuevos (salidas_registros recetas trago s ubicacion usuario fecha)
        trago ubicacion usuario).length = (ingredientes_de recetas trago).length ∧
    (∀ (i : Nat) (r : RecetaLine), (ingredientes_de recetas trago)[i]? = some r →
      (salidas_registros recetas trago s ubicacion usuario fecha)[i]? =
        some ⟨fecha, "Salida Trago", r.ingrediente,
              -(r.cantidad_ml * (s : Rat) / 1000), ubicacion, usuario⟩ ∧
      (consumos_nuevos (salidas_registros recetas trago s ubicacion usuario fecha)
          trago ubicacion usuario)[i]? =
        some ⟨fecha, trago, r.ingrediente,
              r.cantidad_ml * (s : Rat) / 1000, ubicacion, usuario⟩) := by
  refine ⟨?_, ?_, ?_⟩
  · simp [salidas_registros]
  · simp [consumos_nuevos, salidas_registros]
  · intro i r h
    constructor
    · simp [salidas_registros, h]
    · simp [consumos_nuevos, salidas_registros, h]

/-- Witness for C5: a two-ingredient Mojito served twice. -/
theorem form_salida_tragos_spec_witness :
    1 ≤ (ingredientes_de
          [⟨"Mojito", "Ron", 50⟩, ⟨"Mojito", "Menta", 10⟩] "Mojito").length ∧
    1 ≤ 2 ∧
    ((salidas_registros [⟨"Mojito", "Ron", 50⟩, ⟨"Mojito", "Menta", 10⟩]
        "Mojito" 2 "Bar" "u" 0).length =
      (ingredientes_de [⟨"Mojito", "Ron", 50⟩, ⟨"Mojito", "Menta", 10⟩] "Mojito").length ∧
     (consumos_nuevos (salidas_registros [⟨"Mojito", "Ron", 50⟩, ⟨"Mojito", "Menta", 10⟩]
          "Mojito" 2 "Bar" "u" 0) "Mojito" "Bar" "u").length =
       (ingredientes_de [⟨"Mojito", "Ron", 50⟩, ⟨"Mojito", "Menta", 10⟩] "Mojito").length ∧
     (∀ (i : Nat) (r : RecetaLine),
        (ingredientes_de [⟨"Mojito", "Ron", 50⟩, ⟨"Mojito", "Menta", 10⟩] "Mojito")[i]? =
          some r →
       (salidas_registros [⟨"Mojito", "Ron", 50⟩, ⟨"Mojito", "Menta", 10⟩]
          "Mojito" 2 "Bar" "u" 0)[i]? =
         some ⟨0, "Salida Trago", r.ingrediente,
               -(r.cantidad_ml * ((2 : Nat) : Rat) / 1000), "Bar", "u"⟩ ∧
       (consumos_nuevos (salidas_registros [⟨"Mojito", "Ron", 50⟩, ⟨"Mojito", "Menta", 10⟩]
            "Mojito" 2 "Bar" "u" 0) "Mojito" "Bar" "u")[i]? =
         some ⟨0, "Mojito", r.ingrediente,
               r.cantidad_ml * ((2 : Nat) : Rat) / 1000, "Bar", "u"⟩)) :=
  ⟨by decide, by decide,
   form_salida_tragos_spec [⟨"Mojito", "Ron", 50⟩, ⟨"Mojito", "Menta", 10⟩]
     "Mojito" 2 "Bar" "u" 0 (by decide) (by decide)⟩

/-- **C6.** A drink exit for a drink name with no recipe line builds zero
ledger movements: the ledger is returned unchanged (a no-op, not a
failure). -/
theorem form_salida_tragos_noop (recetas : List RecetaLine) (trago : String)
    (s : Nat) (ubicacion usuario : String) (fecha : Int)
    (inventario : List Registro)
    (h : ∀ r ∈ recetas, r.trago ≠ trago) :
    form_salida_tragos recetas trago s ubicacion usuario fecha inventario =
      inventario := by
  unfold form_salida_tragos salidas_registros ingredientes_de
  have hnil : recetas.filter (fun r => r.trago == trago) = [] := by
    apply List.filter_eq_nil_iff.mpr
    intro r hr
    simpa using h r hr
  rw [hnil]
  simp

/-- Witness for C6: serving a Negroni against a recipe book that only
knows the Mojito leaves the ledger untouched. -/
theorem form_salida_tragos_noop_witness :
    form_salida_tragos [⟨"Mojito", "Ron", 50⟩] "Negroni" 1 "Bar" "u" 0
        [⟨0, "Entrada", "Ron", 3, "Bar", "u"⟩] =
      [⟨0, "Entrada", "Ron", 3, "Bar", "u"⟩] :=
  form_salida_tragos_noop [⟨"Mojito", "Ron", 50⟩] "Negroni" 1 "Bar" "u" 0
    [⟨0, "Entrada", "Ron", 3, "Bar", "u"⟩] (by decide)

/-- One row of the `Auditoria_Diaria` table (`Fecha`, `Producto`,
`Ubicación`, `Turno`, `Stock_Teorico`, `Stock_Fisico`, `Diferencia`). -/
structure AuditRecord where
  fecha : Int
  producto : String
  ubicacion : String
  turno : String
  stock_teorico : Rat
  stock_fisico : Rat
  diferencia : Rat
deriving DecidableEq

/-- The daily-audit save (`guardar_submit` branch): one AuditRecord per
theoretical stock row; the physical count is looked up per row and
defaults to the theoretical value when the input is missing, mirroring
`st.session_state.get(key, teorico)`. -/
def guardar_submit (fecha : Int) (turno : String)
    (filas : List (StockRow × Option Rat)) : List AuditRecord :=
  filas.map (fun fila =>
    let teorico := fila.1.stock
    let fisico := fila.2.getD teorico
    ⟨fecha, fila.1.producto, fila.1.ubicacion, turno, teorico, fisico,
     fisico - teorico⟩)

/-- **C8.** The daily-audit save emits one record per row with
`Diferencia = Stock_Fisico − Stock_Teorico`, and a row whose physical
count is missing is saved with the theoretical value as its physical
stock, hence difference 0, rather than being rejected. -/
theorem guardar_submit_spec (fecha : Int) (turno : String)
    (filas : List (StockRow × Option Rat)) :
    (guardar_submit fecha turno filas).length = filas.length ∧
    (∀ rec ∈ guardar_submit fecha turno filas,
      rec.diferencia = rec.stock_fisico - rec.stock_teorico) ∧
    (∀ (i : Nat) (fila : StockRow), filas[i]? = some (fila, none) →
      (guardar_submit fecha turno filas)[i]? =
        some ⟨fecha, fila.producto, fila.ubicacion, turno, fila.stock,
              fila.stock, 0⟩) := by
  refine ⟨?_, ?_, ?_⟩
  · simp [guardar_submit]
  · intro rec hrec
    simp only [guardar_submit, List.mem_map] at hrec
    obtain ⟨fila, _, rfl⟩ := hrec
    rfl
  · intro i fila h
    simp [guardar_submit, h]

/-- Witness for C8: a row with physical count 8 against theoretical 10
yields difference −2, and a row with no physical input is saved with
difference 0. -/
theorem guardar_submit_spec_witness :
    guardar_submit 0 "Apertura"
        [(⟨"Vodka", "Bar", 10⟩, some 8), (⟨"Ron", "Bar", 4⟩, none)] =
      [⟨0, "Vodka", "Bar", "Apertura", 10, 8, -2⟩,
       ⟨0, "Ron", "Bar", "Apertura", 4, 4, 0⟩] ∧
    ((guardar_submit 0 "Apertura"
        [(⟨"Vodka", "Bar", 10⟩, some 8), (⟨"Ron", "Bar", 4⟩, none)]).length =
      (([(⟨"Vodka", "Bar", 10⟩, some 8),
         (⟨"Ron", "Bar", 4⟩, none)]) : List (StockRow × Option Rat)).length ∧
     (∀ rec ∈ guardar_submit 0 "Apertura"
          [(⟨"Vodka", "Bar", 10⟩, some 8), (⟨"Ron", "Bar", 4⟩, none)],
       rec.diferencia = rec.stock_fisico - rec.stock_teorico) ∧
     (∀ (i : Nat) (fila : StockRow),
       (([(⟨"Vodka", "Bar", 10⟩, some 8),
          (⟨"Ron", "Bar", 4⟩, none)]) : List (StockRow × Option Rat))[i]? =
           some (fila, none) →
       (guardar_submit 0 "Apertura"
           [(⟨"Vodka", "Bar", 10⟩, some 8), (⟨"Ron", "Bar", 4⟩, none)])[i]? =
         some ⟨0, fila.producto, fila.ubicacion, "Apertura", fila.stock,
               fila.stock, 0⟩)) :=
  ⟨by norm_num [guardar_submit],
   guardar_submit_spec 0 "Apertura"
     [(⟨"Vodka", "Bar", 10⟩, some 8), (⟨"Ron", "Bar", 4⟩, none)]⟩

/-- Python's `date.weekday()` under the day-number convention of this
file: day 0 falls on a Monday, so the weekday index (Monday = 0) of day
`d` is `d % 7`. -/
def weekday (d : Int) : Int := d % 7

/-- One row of the weekly rollup table `resumen`
(`Producto`, `Ubicación`, `Diferencia_Acumulada`). -/
structure WeeklyRow where
  producto : String
  ubicacion : String
  diferencia_acumulada : Rat
deriving DecidableEq

/-- The weekly rollup (`auditoria_semanal` tab): computes the previous
Monday-to-Sunday window from today, keeps the daily audit records dated
inside it, and sums `Diferencia` per (product, location) group. -/
def auditoria_semanal (hoy : Int) (df_auditaria : List AuditRecord) :
    List WeeklyRow :=
  let inicio_semana := hoy - weekday hoy
  let fin_semana := inicio_semana - 1
  let inicio_semana_ant := fin_semana - 6
  let semana_df := df_auditaria.filter
    (fun a => decide (inicio_semana_ant ≤ a.fecha) && decide (a.fecha ≤ fin_semana))
  ((semana_df.map (fun a => (a.producto, a.ubicacion))).dedup).map
    (fun k => ⟨k.1, k.2,
      ((semana_df.filter (fun a => a.producto == k.1 && a.ubicacion == k.2)).map
        (fun a => a.diferencia)).sum⟩)

/-- **C9.** The weekly rollup works on the previous calendar week: writing
M for `hoy - weekday hoy`, M is the Monday of the current week containing
today, the records kept are exactly those dated in [M − 7, M − 1] (the
previous Monday through the previous Sunday), every produced row
accumulates the sum of the kept differences of its (product, location)
group, and every kept record is covered by some produced row. -/
theorem auditoria_semanal_spec (hoy : Int) (df : List AuditRecord) :
    (weekday (hoy - weekday hoy) = 0 ∧ hoy - weekday hoy ≤ hoy ∧
      hoy < hoy - weekday hoy + 7) ∧
    (∀ r ∈ auditoria_semanal hoy df,
      r.diferencia_acumulada =
        (((df.filter (fun a => decide (hoy - weekday hoy - 7 ≤ a.fecha) &&
              decide (a.fecha ≤ hoy - weekday hoy - 1))).filter
            (fun a => a.producto == r.producto && a.ubicacion == r.ubicacion)).map
          (fun a => a.diferencia)).sum) ∧
    (∀ a ∈ df, hoy - weekday hoy - 7 ≤ a.fecha → a.fecha ≤ hoy - weekday hoy - 1 →
      ∃ r ∈ auditoria_semanal hoy df,
        r.producto = a.producto ∧ r.ubicacion = a.ubicacion) := by
  have hfil : df.filter
      (fun a => decide (hoy - weekday hoy - 1 - 6 ≤ a.fecha) &&
        decide (a.fecha ≤ hoy - weekday hoy - 1)) =
      df.filter (fun a => decide (hoy - weekday hoy - 7 ≤ a.fecha) &&
        decide (a.fecha ≤ hoy - weekday hoy - 1)) := by
    apply List.filter_congr
    intro a _
    have hiff : (hoy - weekday hoy - 1 - 6 ≤ a.fecha) ↔
        (hoy - weekday hoy - 7 ≤ a.fecha) := by omega
    rw [decide_eq_decide.mpr hiff]
  refine ⟨?_, ?_, ?_⟩
  · unfold weekday
    omega
  · intro r hr
    simp only [auditoria_semanal, List.mem_map] at hr
    obtain ⟨k, hk, rfl⟩ := hr
    simp only [← hfil]
  · intro a ha h1 h2
    have hmem : a ∈ df.filter
        (fun x => decide (hoy - weekday hoy - 1 - 6 ≤ x.fecha) &&
          decide (x.fecha ≤ hoy - weekday hoy - 1)) := by
      rw [List.mem_filter]
      refine ⟨ha, ?_⟩
      simp only [Bool.and_eq_true, decide_eq_true_eq]
      exact ⟨by omega, h2⟩
    simp only [auditoria_semanal, List.mem_map]
    refine ⟨_, ⟨(a.producto, a.ubicacion),
      List.mem_dedup.mpr (List.mem_map.mpr ⟨a, hmem, rfl⟩), rfl⟩, rfl, rfl⟩

/-- Witness for C9: today is day 9 (a Wednesday), so the previous week is
days 0 through 6; three audit rows for product P at location A dated in
that window with differences −2, +1 and −1 roll up to −2. -/
theorem auditoria_semanal_spec_witness :
    auditoria_semanal 9
        [⟨0, "P", "A", "Apertura", 10, 8, -2⟩,
         ⟨1, "P", "A", "Apertura", 8, 9, 1⟩,
         ⟨2, "P", "A", "Apertura", 9, 8, -1⟩] =
      [⟨"P", "A", -2⟩] ∧
    (weekday (9 - weekday 9) = 0 ∧ 9 - weekday 9 ≤ 9 ∧
      (9 : Int) < 9 - weekday 9 + 7) :=
  ⟨by norm_num [auditoria_semanal, weekday, List.dedup_cons_of_mem,
      List.dedup_cons_of_not_mem],
   (auditoria_semanal_spec 9
      [⟨0, "P", "A", "Apertura", 10, 8, -2⟩,
       ⟨1, "P", "A", "Apertura", 8, 9, 1⟩,
       ⟨2, "P", "A", "Apertura", 9, 8, -1⟩]).1⟩
